import Mathlib

/-!
Verification development for the `mistral-ocr-pdf` repository.

The definitions below are a shallow embedding of the two API route handlers
(`src/app/api/chat/route.ts`: the chat POST and the document-parse POST with
its helpers `createMockResponse` and `processOcrResponse`) and of the asset
store (`storeImagesFromMap` and friends in `lib/server/asset-store.ts`).

Modelling conventions:
* JavaScript numbers are modelled as `ℚ` (the claims under study are about
  exact coordinate arithmetic, not floating-point rounding).
* JavaScript `x || d` (falsy fallback) is modelled by `jsOr` / `jsOrStr`:
  `null`/`undefined` becomes `Option.none`, and the falsy values `0` and
  `""` also fall back to the default, exactly as in JS.
* Filesystem / blob storage and the network are nondeterministic from the
  program's point of view; they are modelled by an oracle
  `save : String → String → Option SavedImageAsset` where `none` means the
  per-image store threw, and by opaque string parameters for fetched bytes.
* `Array.prototype.split(p).join(r)` on a non-empty pattern `p` (the code's
  "simple string replacement") is modelled by `replaceAllCore`, a scanner
  replacing every leftmost non-overlapping occurrence.
-/

/-- JS `v || d` for an optional numeric value: `null`/`undefined` and `0` are
falsy and fall back to `d`. -/
def jsOr {α : Type} [Zero α] [DecidableEq α] (v : Option α) (d : α) : α :=
  match v with
  | none => d
  | some x => if x = 0 then d else x

/-- JS `v || d` for an optional string value: `null`/`undefined` and `""` are
falsy and fall back to `d`. -/
def jsOrStr (v : Option String) (d : String) : String :=
  match v with
  | none => d
  | some s => if s = "" then d else s

/-- `OCRImageObject` from `route.ts`: one extracted image of one OCR page,
with nullable corner coordinates and an optional base64 payload. -/
structure OCRImageObject where
  id : String
  topLeftX : Option ℚ
  topLeftY : Option ℚ
  bottomRightX : Option ℚ
  bottomRightY : Option ℚ
  imageBase64 : Option String
  deriving DecidableEq

/-- `OCRPageDimensions` from `route.ts`. -/
structure OCRPageDimensions where
  dpi : ℚ
  height : ℚ
  width : ℚ
  deriving DecidableEq

/-- `OCRPageObject` from `route.ts`. -/
structure OCRPageObject where
  index : Int
  markdown : String
  images : List OCRImageObject
  dimensions : Option OCRPageDimensions
  deriving DecidableEq

/-- `OCRUsageInfo` from `route.ts`. -/
structure OCRUsageInfo where
  pagesProcessed : Int
  docSizeBytes : Option Int
  deriving DecidableEq

/-- `OCRResponse` from `route.ts`.  `usageInfo` is optional because the code
guards it with `ocrResponse.usageInfo || …`. -/
structure OCRResponse where
  pages : List OCRPageObject
  model : String
  usageInfo : Option OCRUsageInfo
  deriving DecidableEq

/-- Normalized coordinates of a processed image (`coordinates` field). -/
structure Coordinates where
  x : ℚ
  y : ℚ
  width : ℚ
  height : ℚ
  deriving DecidableEq

/-- Original pixel coordinates of a processed image
(`originalCoordinates` field). -/
structure OriginalCoordinates where
  top_left_x : ℚ
  top_left_y : ℚ
  bottom_right_x : ℚ
  bottom_right_y : ℚ
  deriving DecidableEq

/-- One element of a processed page's `images` array. -/
structure ProcessedImage where
  id : String
  url : String
  coordinates : Coordinates
  originalCoordinates : OriginalCoordinates
  deriving DecidableEq

/-- `ProcessedPage` from `route.ts`. -/
structure ProcessedPage where
  index : Int
  markdown : String
  rawMarkdown : String
  images : List ProcessedImage
  dimensions : OCRPageDimensions
  deriving DecidableEq

/-- `SavedImageAsset` from `asset-store.ts` (the optional `filePath`,
`width`, `height` fields are not consulted by the route code and are
omitted). -/
structure SavedImageAsset where
  id : String
  originalId : String
  publicPath : String
  mimeType : String
  deriving DecidableEq

/-- One element of the `storedAssets` array built in `processOcrResponse`. -/
structure StoredAsset where
  id : String
  originalId : String
  publicPath : String
  mimeType : String
  deriving DecidableEq

/-- The JSON object returned by `processOcrResponse`. -/
structure ProcessedResponse where
  text : String
  rawText : String
  sessionId : String
  pages : List ProcessedPage
  images : List ProcessedImage
  storedAssets : List StoredAsset
  usage_pages_processed : Int
  usage_doc_size_bytes : Int
  model : String
  deriving DecidableEq

/-- `storeImagesFromMap` (asset-store.ts): iterate over the entries of the
image map in order; each per-image store either succeeds (`save id data =
some asset`) or throws, in which case the error is caught, logged, and the
image is simply omitted from the returned record.  The function itself is
total: a single failed image never propagates an exception. -/
def storeImagesFromMap (save : String → String → Option SavedImageAsset)
    (imageMap : List (String × String)) : List (String × SavedImageAsset) :=
  imageMap.filterMap (fun e => (save e.1 e.2).map (fun a => (e.1, a)))

/-- JS object property read `m[k]`: the value at the first (in a JS object,
only) entry with key `k`, or `undefined` (`none`). -/
def recordGet {α : Type} (m : List (String × α)) (k : String) : Option α :=
  match m with
  | [] => none
  | e :: rest => if e.1 = k then some e.2 else recordGet rest k

/-- JS object property assignment `m[k] = v`: overwrite in place if the key
exists, otherwise append (JS objects preserve first-insertion order). -/
def recordSet (m : List (String × String)) (k v : String) :
    List (String × String) :=
  match m with
  | [] => [(k, v)]
  | e :: rest => if e.1 = k then (k, v) :: rest else e :: recordSet rest k v

/-- The data URL chosen for an image (`route.ts` line 434):
`image.imageBase64 ? `${image.imageBase64}` : "/placeholder.svg?…"`, where
an absent or empty payload is falsy. -/
def dataUrlOf (image : OCRImageObject) : String :=
  match image.imageBase64 with
  | some b64 => if b64 = "" then "/placeholder.svg?height=200&width=300" else b64
  | none => "/placeholder.svg?height=200&width=300"

/-- The per-page `imageMap` record built by the `page.images.map` loop:
`imageMap[image.id] = dataUrl`. -/
def buildImageMap (page : OCRPageObject) : List (String × String) :=
  page.images.foldl (fun m image => recordSet m image.id (dataUrlOf image)) []

/-- The per-image body of the `page.images.map` loop in
`processOcrResponse`: coordinate defaulting and normalization. -/
def processImage (page : OCRPageObject) (image : OCRImageObject) :
    ProcessedImage :=
  let dataUrl := dataUrlOf image
  let topLeftX := jsOr image.topLeftX 0
  let topLeftY := jsOr image.topLeftY 0
  let bottomRightX := jsOr image.bottomRightX 100
  let bottomRightY := jsOr image.bottomRightY 100
  let width := bottomRightX - topLeftX
  let height := bottomRightY - topLeftY
  let pageWidth := jsOr (page.dimensions.map (fun d => d.width)) 612
  let pageHeight := jsOr (page.dimensions.map (fun d => d.height)) 792
  { id := image.id
    url := dataUrl
    coordinates :=
      { x := topLeftX / pageWidth
        y := topLeftY / pageHeight
        width := width / pageWidth
        height := height / pageHeight }
    originalCoordinates :=
      { top_left_x := topLeftX
        top_left_y := topLeftY
        bottom_right_x := bottomRightX
        bottom_right_y := bottomRightY } }

/-- Scanner for JS `s.split(pat).join(rep)` with a non-empty `pat`: replace
every leftmost non-overlapping occurrence of `pat` in `s` by `rep`.  (The
route code only ever calls it with the non-empty pattern `![id](id)`.) -/
def replaceAllCore (pat rep : List Char) : List Char → List Char
  | [] => []
  | c :: rest =>
    if h : pat ≠ [] ∧ (c :: rest).take pat.length = pat then
      rep ++ replaceAllCore pat rep ((c :: rest).drop pat.length)
    else
      c :: replaceAllCore pat rep rest
  termination_by s => s.length
  decreasing_by
  · simp only [List.length_drop, List.length_cons]
    have hlen : 1 ≤ pat.length := by
      cases hp : pat with
      | nil => exact absurd hp h.1
      | cons a l => simp
    omega
  · simp

/-- `processedMarkdown.split(imagePattern).join(imageReplacement)`
(`route.ts` line 486). -/
def jsSplitJoin (s pat rep : String) : String :=
  String.mk (replaceAllCore pat.data rep.data s.data)

/-- The literal pattern `![id](id)` searched for in the page markdown. -/
def imagePattern (id : String) : String :=
  "![" ++ id ++ "](" ++ id ++ ")"

/-- The replacement `![id](savedImages[id]?.publicPath || dataUrl)`
(`route.ts` line 483). -/
def imageReplacement (savedImages : List (String × SavedImageAsset))
    (id dataUrl : String) : String :=
  "![" ++ id ++ "](" ++
    jsOrStr ((recordGet savedImages id).map (fun a => a.publicPath)) dataUrl ++ ")"

/-- The body of the `ocrResponse.pages.map` callback in
`processOcrResponse`: build the image map, process the images, store them,
rewrite the markdown, and update the image URLs with the stored paths. -/
def processPage (save : String → String → Option SavedImageAsset)
    (page : OCRPageObject) : ProcessedPage :=
  let imageMap := buildImageMap page
  let images := page.images.map (processImage page)
  let savedImages := storeImagesFromMap save imageMap
  let processedMarkdown := imageMap.foldl
    (fun md e => jsSplitJoin md (imagePattern e.1)
      (imageReplacement savedImages e.1 e.2)) page.markdown
  let updatedImages := images.map (fun img =>
    { img with
      url := jsOrStr ((recordGet savedImages img.id).map (fun a => a.publicPath))
        img.url })
  { index := page.index
    markdown := processedMarkdown
    rawMarkdown := page.markdown
    images := updatedImages
    dimensions := page.dimensions.getD { dpi := 72, height := 792, width := 612 } }

/-- JS `s.split(sep)` for a single-character separator (the code only
splits on `"/"` and `"."`): splits at every occurrence, keeping empty
parts. -/
def splitChar (sep : Char) : List Char → List (List Char)
  | [] => [[]]
  | c :: rest =>
    match splitChar sep rest with
    | [] => [[]]
    | part :: parts =>
      if c = sep then [] :: part :: parts else (c :: part) :: parts

/-- The per-image body of the `allStoredAssets` construction
(`route.ts` lines 526-545): derive a stored-asset record from the image's
final URL, or `null` when that URL is falsy. -/
def deriveAsset (img : ProcessedImage) : Option StoredAsset :=
  let publicPath := img.url
  if publicPath = "" then none
  else
    let fileName :=
      jsOrStr ((splitChar '/' publicPath.data).getLast?.map String.mk) ""
    let id :=
      jsOrStr ((splitChar '.' fileName.data).head?.map String.mk) img.id
    let extension :=
      jsOrStr ((splitChar '.' fileName.data).getLast?.map String.mk) "png"
    some { id := id
           originalId := img.id
           publicPath := publicPath
           mimeType := "image/" ++ extension }

/-- Recursion behind `dedupById`: an element is kept exactly when no element
of the original array strictly before it (accumulated in `prev`) has the
same `id`, which is the JS condition
`index === self.findIndex((a) => a?.id === asset?.id)`. -/
def dedupGo : List StoredAsset → List StoredAsset → List StoredAsset
  | _, [] => []
  | prev, a :: rest =>
    if prev.any (fun x => x.id == a.id) then dedupGo (prev ++ [a]) rest
    else a :: dedupGo (prev ++ [a]) rest

/-- The duplicate-removal filter of `route.ts` lines 550-552: keep the first
occurrence of each derived `id`, preserving order. -/
def dedupById (assets : List StoredAsset) : List StoredAsset :=
  dedupGo [] assets

/-- The `allStoredAssets` list before `filter(Boolean)` dedup: one derived
asset per processed image, in page/image order. -/
def allDerivedAssets (save : String → String → Option SavedImageAsset)
    (ocrResponse : OCRResponse) : List StoredAsset :=
  ((ocrResponse.pages.map (processPage save)).flatMap (fun p => p.images)).filterMap
    deriveAsset

/-- `processOcrResponse` from `route.ts`: normalize a vendor OCR response
into the document model returned to the client. -/
def processOcrResponse (save : String → String → Option SavedImageAsset)
    (ocrResponse : OCRResponse) (sessionId : String) : ProcessedResponse :=
  let processedPages := ocrResponse.pages.map (processPage save)
  let combinedMarkdown :=
    String.intercalate "\n\n" (processedPages.map (fun p => p.markdown))
  let rawMarkdown :=
    String.intercalate "\n\n" (processedPages.map (fun p => p.rawMarkdown))
  let allImages := processedPages.flatMap (fun p => p.images)
  let usageInfo := ocrResponse.usageInfo.getD
    { pagesProcessed := ocrResponse.pages.length, docSizeBytes := some 0 }
  let storedAssets := dedupById (allDerivedAssets save ocrResponse)
  { text := combinedMarkdown
    rawText := rawMarkdown
    sessionId := sessionId
    pages := processedPages
    images := allImages
    storedAssets := storedAssets
    usage_pages_processed := jsOr (some usageInfo.pagesProcessed) 0
    usage_doc_size_bytes := jsOr usageInfo.docSizeBytes 0
    model := jsOrStr (some ocrResponse.model) "mistral-ocr-latest" }

/-- Scanner for JS `s.replace(pat, rep)` with a string pattern: replace only
the first occurrence of `pat`. -/
def replaceFirstCore (pat rep : List Char) : List Char → List Char
  | [] => []
  | c :: rest =>
    if pat ≠ [] ∧ (c :: rest).take pat.length = pat then
      rep ++ (c :: rest).drop pat.length
    else
      c :: replaceFirstCore pat rep rest

/-- JS `s.replace(pat, rep)` (first occurrence only). -/
def jsReplaceFirst (s pat rep : String) : String :=
  String.mk (replaceFirstCore pat.data rep.data s.data)

/-- The PMI graph image URL hard-coded in `createMockResponse`. -/
def pmiGraphUrl : String :=
  "https://hebbkx1anhila5yf.public.blob.vercel-storage.com/img-1.jpeg-0afae6fb-OLkYscR0PxBzexzNs6sQJ6v8H4dKv2.jpeg"

/-- The `sampleMarkdown` template literal of `createMockResponse`,
with `${fileName}` and `${pmiGraphUrl}` interpolated. -/
def sampleMarkdown (fileName : String) : String :=
  "# PMI Economic Report: " ++ fileName ++
  "\n\n## Economic Analysis - December 2023\n\nRising workforce numbers at a time of falling new orders meant that firms continued to work through outstanding business in the final month of the year. Moreover, the pace of depletion was sharp and the steepest since June 2023.\n\nWhile firms increased employment, the drop in new orders resulted in reductions in purchasing activity, as well as stocks of inputs and finished goods. Input buying and stocks of purchases both decreased more quickly than in November, while the reduction in stocks of finished goods was the first in six months.\n\n![pmi_graph](" ++
  pmiGraphUrl ++
  ")\n\n## Price Trends\n\nThe rate of input cost inflation accelerated sharply at the end of the year, with the latest increase the fastest since August. The rise was broadly in line with the pre-pandemic average. Higher supplier charges and rising costs for raw materials were reported by panellists. \n\nIn turn, firms increased their output prices, with the pace of inflation quickening to a three-month high. Charges have risen continuously since June 2020.\n\nMeanwhile, suppliers\x27 delivery times lengthened to the greatest extent since October 2022, linked to staff shortages at suppliers and freight delays."

/-- The JSON object returned by `createMockResponse` (same shape as
`ProcessedResponse` plus the stray `maxTokens` field). -/
structure MockResponse where
  text : String
  rawText : String
  sessionId : String
  pages : List ProcessedPage
  images : List ProcessedImage
  storedAssets : List StoredAsset
  usage_pages_processed : Int
  usage_doc_size_bytes : Int
  model : String
  maxTokens : Int
  deriving DecidableEq

/-- `createMockResponse` from `route.ts`: the canned fallback/sample
response.  `base64Image` stands for the base64 encoding of the bytes fetched
from `pmiGraphUrl` (a network effect outside the program). -/
def createMockResponse (fileName sessionId base64Image : String)
    (save : String → String → Option SavedImageAsset) : MockResponse :=
  let sample := sampleMarkdown fileName
  let rawMarkdown := jsReplaceFirst sample
    ("![pmi_graph](" ++ pmiGraphUrl ++ ")") "![pmi_graph](pmi_graph)"
  let dataUrl := "data:image/jpeg;base64," ++ base64Image
  let imageMap : List (String × String) := [("pmi_graph", dataUrl)]
  let savedImages := storeImagesFromMap save imageMap
  let storedAssets := savedImages.map (fun e =>
    { id := e.2.id
      originalId := e.2.originalId
      publicPath := e.2.publicPath
      mimeType := e.2.mimeType : StoredAsset })
  let mockUrl := jsOrStr
    ((recordGet savedImages "pmi_graph").map (fun a => a.publicPath)) pmiGraphUrl
  let mockImage : ProcessedImage :=
    { id := "pmi_graph"
      url := mockUrl
      coordinates := { x := 0.08, y := 0.38, width := 0.82, height := 0.25 }
      originalCoordinates :=
        { top_left_x := 50, top_left_y := 300
          bottom_right_x := 550, bottom_right_y := 500 } }
  { text := sample
    rawText := rawMarkdown
    sessionId := sessionId
    pages := [{ index := 0
                markdown := sample
                rawMarkdown := rawMarkdown
                images := [mockImage]
                dimensions := { dpi := 72, height := 792, width := 612 } }]
    images := [mockImage]
    storedAssets := storedAssets
    usage_pages_processed := 1
    usage_doc_size_bytes := 1024
    model := "mistral-ocr-latest"
    maxTokens := 8000 }

/-- External calls the document-parse POST handler can make (used to state
that the early-return paths make none of them). -/
inductive Effect where
  | vendorApi
  | assetStore
  deriving DecidableEq

/-- The possible HTTP responses of the document-parse POST handler. -/
inductive ParseResponse where
  | jsonError (status : Nat) (error : String)
  | jsonMock (m : MockResponse)
  | jsonOk (r : ProcessedResponse)
  deriving DecidableEq

/-- The document-parse `POST` handler of `route.ts` (lines 190-287),
modelled over the oracles it consults: `pdf` is `formData.get("pdf")`,
`isSampleField` is `formData.get("isSample")`, `base64Image` the fetched
sample image bytes, `save` the per-image store, and `apiResult` the combined
outcome of the Mistral upload/signed-URL/OCR call sequence (`Except.error`
when any of those calls threw).  The second component records which external
subsystems the handler invoked. -/
def parsePostHandler (pdf : Option String) (isSampleField : Option String)
    (sessionId base64Image : String)
    (save : String → String → Option SavedImageAsset)
    (apiResult : Except String OCRResponse) : ParseResponse × List Effect :=
  match pdf with
  | none => (ParseResponse.jsonError 400 "No PDF file provided", [])
  | some pdfName =>
    let isSample := isSampleField == some "true"
    if isSample then
      (ParseResponse.jsonMock (createMockResponse pdfName sessionId base64Image save),
       [Effect.assetStore])
    else
      match apiResult with
      | Except.ok ocrResponse =>
        (ParseResponse.jsonOk (processOcrResponse save ocrResponse sessionId),
         [Effect.vendorApi, Effect.assetStore])
      | Except.error _ =>
        (ParseResponse.jsonMock (createMockResponse pdfName sessionId base64Image save),
         [Effect.vendorApi, Effect.assetStore])

/-- Text of the system-message template literal of the chat `POST` handler
that precedes `${documentContent}`. -/
def sysPromptBefore : String :=
  "You are a helpful assistant that answers questions about the following document content. \n       Use this content to provide accurate answers:    \n       \n       "

/-- Text of the system-message template literal of the chat `POST` handler
that follows `${documentContent}`. -/
def sysPromptAfter : String :=
  "\n       \n    \n       For data visualization:\n- Proactively apply visualizations whenever possible.\n- Use ![alt text](/assets/ocr-images/...jpeg)   for image suggestions.\n\n       "

/-- The `systemMessage` computed by the chat `POST` handler: the document
template when `documentContent` is truthy, the plain assistant prompt
otherwise. -/
def chatSystemMessage (documentContent : Option String) : String :=
  match documentContent with
  | some content =>
    if content = "" then "You are a helpful assistant."
    else sysPromptBefore ++ content ++ sysPromptAfter
  | none => "You are a helpful assistant."

/-- A tool passed to `streamText` (name, description, and the `execute`
callback on its single string parameter). -/
structure ChatTool where
  name : String
  description : String
  execute : String → String

/-- The `ExtractSubject` tool of the chat `POST` handler; its `execute`
returns the `subject` argument unchanged. -/
def extractSubjectTool : ChatTool :=
  { name := "ExtractSubject"
    description := "Extracts a subject from the context injected into the system prompt."
    execute := fun subject => subject }

/-- The arguments the chat `POST` handler passes to `streamText`. -/
structure StreamTextCall where
  system : String
  tools : List ChatTool
  maxSteps : Nat

/-- The `streamText` invocation made by the chat `POST` handler for a given
`documentContent`. -/
def chatPostStreamTextCall (documentContent : Option String) : StreamTextCall :=
  { system := chatSystemMessage documentContent
    tools := [extractSubjectTool]
    maxSteps := 3 }

/-! ### Helper lemmas -/

theorem jsOr_some_zero (x : ℚ) : jsOr (some x) 0 = x := by
  unfold jsOr
  split <;> simp_all

theorem jsOr_some_of_ne {x d : ℚ} (h : x ≠ 0) : jsOr (some x) d = x := by
  simp [jsOr, h]

theorem jsOrStr_some_of_ne {s d : String} (h : s ≠ "") : jsOrStr (some s) d = s := by
  simp [jsOrStr, h]

/-! ### C5 -/

/-- C5: the document-level `text` field is the pages' processed markdown
joined with `"\n\n"`, and `rawText` is the pages' raw (vendor) markdown
joined the same way. -/
theorem c5_text_concatenation (save : String → String → Option SavedImageAsset)
    (resp : OCRResponse) (sid : String) :
    (processOcrResponse save resp sid).text =
      String.intercalate "\n\n"
        (resp.pages.map (fun p => (processPage save p).markdown)) ∧
    (processOcrResponse save resp sid).rawText =
      String.intercalate "\n\n" (resp.pages.map (fun p => p.markdown)) := by
  constructor
  · simp [processOcrResponse, List.map_map]
    rfl
  · simp [processOcrResponse, List.map_map]
    rfl

/-! ### C7 -/

/-- C7: normalization leaves the raw markdown untouched; the processed page
at each index carries the vendor's page markdown verbatim in `rawMarkdown`. -/
theorem c7_raw_markdown_preserved
    (save : String → String → Option SavedImageAsset)
    (resp : OCRResponse) (sid : String) (i : Nat) (page : OCRPageObject)
    (hp : resp.pages[i]? = some page) :
    ∃ pp, (processOcrResponse save resp sid).pages[i]? = some pp ∧
      pp.rawMarkdown = page.markdown := by
  refine ⟨processPage save page, ?_, rfl⟩
  simp [processOcrResponse, hp]

theorem c7_raw_markdown_preserved_witness :
    ∃ pp, (processOcrResponse (fun _ _ => none)
        { pages := [{ index := 0, markdown := "hello ![a](a)", images := [],
                      dimensions := none }],
          model := "m", usageInfo := none } "sid").pages[0]? = some pp ∧
      pp.rawMarkdown = "hello ![a](a)" :=
  c7_raw_markdown_preserved (fun _ _ => none)
    { pages := [{ index := 0, markdown := "hello ![a](a)", images := [],
                  dimensions := none }],
      model := "m", usageInfo := none } "sid" 0
    { index := 0, markdown := "hello ![a](a)", images := [], dimensions := none }
    rfl

/-! ### C10 -/

/-- C10: a document-parse request with no `"pdf"` form entry gets HTTP 400
with body `{"error": "No PDF file provided"}`, and neither the vendor API
nor the asset store is invoked. -/
theorem c10_missing_pdf_rejected (isSampleField : Option String)
    (sid b64 : String) (save : String → String → Option SavedImageAsset)
    (apiResult : Except String OCRResponse) :
    parsePostHandler none isSampleField sid b64 save apiResult =
      (ParseResponse.jsonError 400 "No PDF file provided", []) := rfl

/-! ### C3 -/

/-- C3: when the Mistral upload/OCR call sequence throws, the handler
answers with the canned mock response (which does not depend on the vendor
error) rather than an error payload. -/
theorem c3_api_error_falls_back_to_mock (pdfName : String)
    (isSampleField : Option String) (sid b64 : String)
    (save : String → String → Option SavedImageAsset) (e : String)
    (hs : isSampleField ≠ some "true") :
    parsePostHandler (some pdfName) isSampleField sid b64 save
        (Except.error e) =
      (ParseResponse.jsonMock (createMockResponse pdfName sid b64 save),
       [Effect.vendorApi, Effect.assetStore]) := by
  simp [parsePostHandler, hs]

theorem c3_api_error_falls_back_to_mock_witness :
    parsePostHandler (some "report.pdf") none "sid" "QUJD" (fun _ _ => none)
        (Except.error "upload failed") =
      (ParseResponse.jsonMock
        (createMockResponse "report.pdf" "sid" "QUJD" (fun _ _ => none)),
       [Effect.vendorApi, Effect.assetStore]) :=
  c3_api_error_falls_back_to_mock "report.pdf" none "sid" "QUJD"
    (fun _ _ => none) "upload failed" (by simp)

/-! ### C8 -/

/-- C8: the chat POST passes the document content into the system prompt
(plain assistant prompt when it is absent), and exposes exactly the single
tool `ExtractSubject`, whose `execute` returns its `subject` argument
unchanged. -/
theorem c8_chat_system_prompt_and_tool :
    (∀ dc, (chatPostStreamTextCall dc).system = chatSystemMessage dc ∧
      (chatPostStreamTextCall dc).tools = [extractSubjectTool]) ∧
    (∀ c : String, c ≠ "" →
      chatSystemMessage (some c) = sysPromptBefore ++ c ++ sysPromptAfter) ∧
    chatSystemMessage none = "You are a helpful assistant." ∧
    extractSubjectTool.name = "ExtractSubject" ∧
    (∀ s, extractSubjectTool.execute s = s) := by
  refine ⟨fun dc => ⟨rfl, rfl⟩, fun c hc => ?_, rfl, rfl, fun s => rfl⟩
  simp [chatSystemMessage, hc]

theorem c8_chat_system_prompt_and_tool_witness :
    chatSystemMessage (some "DOC TEXT") =
      sysPromptBefore ++ "DOC TEXT" ++ sysPromptAfter :=
  c8_chat_system_prompt_and_tool.2.1 "DOC TEXT" (by simp)

/-! ### C1 -/

/-- Modelled from the spec wording for comparison in C1: "the page's
declared width … defaulting to 612 … if the vendor omitted" it. -/
def declaredPageWidth (page : OCRPageObject) : ℚ :=
  match page.dimensions with
  | none => 612
  | some d => d.width

/-- Modelled from the spec wording for comparison in C1: "the page's
declared height … defaulting to 792 … if the vendor omitted" it. -/
def declaredPageHeight (page : OCRPageObject) : ℚ :=
  match page.dimensions with
  | none => 792
  | some d => d.height

/-- C1: for every page and image, `processOcrResponse` returns normalized
coordinates obtained by dividing the corner coordinates by the declared page
width/height (612×792 when the vendor omitted the dimensions), with
width/height derived as corner differences; the equations hold for all
corner values — including those whose quotient lies outside `[0,1]` — so no
clamping takes place (the witness exhibits a fraction equal to 2).  The
hypotheses exclude the JS falsy corner cases (`0` bottom-right corners and
zero declared dimensions fall back to their defaults in the code). -/
theorem c1_normalized_coordinates
    (save : String → String → Option SavedImageAsset)
    (resp : OCRResponse) (sid : String) (i j : Nat)
    (page : OCRPageObject) (img : OCRImageObject) (tlx tly brx bry : ℚ)
    (hp : resp.pages[i]? = some page) (hi : page.images[j]? = some img)
    (htlx : img.topLeftX = some tlx) (htly : img.topLeftY = some tly)
    (hbrx : img.bottomRightX = some brx) (hbry : img.bottomRightY = some bry)
    (hbx : brx ≠ 0) (hby : bry ≠ 0)
    (hdim : ∀ d, page.dimensions = some d → d.width ≠ 0 ∧ d.height ≠ 0) :
    ∃ pp pimg, (processOcrResponse save resp sid).pages[i]? = some pp ∧
      pp.images[j]? = some pimg ∧
      pimg.coordinates.x = tlx / declaredPageWidth page ∧
      pimg.coordinates.y = tly / declaredPageHeight page ∧
      pimg.coordinates.width = (brx - tlx) / declaredPageWidth page ∧
      pimg.coordinates.height = (bry - tly) / declaredPageHeight page := by
  have hpw : jsOr (page.dimensions.map (fun d => d.width)) 612 =
      declaredPageWidth page := by
    cases hd : page.dimensions with
    | none => simp [declaredPageWidth, hd, jsOr]
    | some d => simp [declaredPageWidth, hd, jsOr_some_of_ne (hdim d hd).1]
  have hph : jsOr (page.dimensions.map (fun d => d.height)) 792 =
      declaredPageHeight page := by
    cases hd : page.dimensions with
    | none => simp [declaredPageHeight, hd, jsOr]
    | some d => simp [declaredPageHeight, hd, jsOr_some_of_ne (hdim d hd).2]
  refine ⟨processPage save page,
    { processImage page img with
      url := jsOrStr
        ((recordGet (storeImagesFromMap save (buildImageMap page))
          (processImage page img).id).map (fun a => a.publicPath))
        (processImage page img).url }, ?_, ?_, ?_, ?_, ?_, ?_⟩
  · simp [processOcrResponse, hp]
  · simp [processPage, List.getElem?_map, hi]
  all_goals
    simp [processImage, htlx, htly, hbrx, hbry, jsOr_some_zero,
      jsOr_some_of_ne hbx, jsOr_some_of_ne hby, hpw, hph]


theorem c1_normalized_coordinates_witness :
    (∃ pp pimg, (processOcrResponse (fun _ _ => none)
        { pages := [{ index := 0, markdown := "",
                      images := [{ id := "a", topLeftX := some 1224,
                                   topLeftY := some 1584,
                                   bottomRightX := some 1836,
                                   bottomRightY := some 2376,
                                   imageBase64 := none }],
                      dimensions := none }],
          model := "m", usageInfo := none } "sid").pages[0]? = some pp ∧
      pp.images[0]? = some pimg ∧
      pimg.coordinates.x = 1224 / 612 ∧
      pimg.coordinates.y = 1584 / 792 ∧
      pimg.coordinates.width = (1836 - 1224) / 612 ∧
      pimg.coordinates.height = (2376 - 1584) / 792) ∧
    ¬((1224 : ℚ) / 612 ≤ 1) :=
  ⟨c1_normalized_coordinates (fun _ _ => none)
    { pages := [{ index := 0, markdown := "",
                  images := [{ id := "a", topLeftX := some 1224,
                               topLeftY := some 1584,
                               bottomRightX := some 1836,
                               bottomRightY := some 2376,
                               imageBase64 := none }],
                  dimensions := none }],
      model := "m", usageInfo := none } "sid" 0 0
    { index := 0, markdown := "",
      images := [{ id := "a", topLeftX := some 1224, topLeftY := some 1584,
                   bottomRightX := some 1836, bottomRightY := some 2376,
                   imageBase64 := none }],
      dimensions := none }
    { id := "a", topLeftX := some 1224, topLeftY := some 1584,
      bottomRightX := some 1836, bottomRightY := some 2376,
      imageBase64 := none }
    1224 1584 1836 2376 rfl rfl rfl rfl rfl rfl (by decide) (by decide)
    (fun d hd => by cases hd),
   by norm_num⟩


/-! ### C4 -/

theorem recordGet_recordSet_self (k v : String) :
    ∀ m : List (String × String), recordGet (recordSet m k v) k = some v := by
  intro m
  induction m with
  | nil => simp [recordSet, recordGet]
  | cons e rest ih =>
    by_cases he : e.1 = k
    · simp [recordSet, recordGet, he]
    · simp [recordSet, recordGet, he, ih]

theorem recordGet_recordSet_other (k' k v : String) (h : k' ≠ k) :
    ∀ m : List (String × String),
      recordGet (recordSet m k v) k' = recordGet m k' := by
  intro m
  induction m with
  | nil => simp [recordSet, recordGet, Ne.symm h]
  | cons e rest ih =>
    by_cases he : e.1 = k
    · simp [recordSet, recordGet, he, Ne.symm h]
    · simp [recordSet, recordGet, he, ih]

theorem recordGet_recordSet_isSome (m : List (String × String))
    (k' k v : String) (h : (recordGet m k').isSome) :
    (recordGet (recordSet m k v) k').isSome := by
  by_cases hk : k' = k
  · subst hk
    simp [recordGet_recordSet_self]
  · simpa [recordGet_recordSet_other k' k v hk] using h

theorem foldl_recordSet_isSome :
    ∀ (l : List OCRImageObject) (init : List (String × String)) (k : String),
      (recordGet init k).isSome →
      (recordGet
        (l.foldl (fun m image => recordSet m image.id (dataUrlOf image)) init)
        k).isSome := by
  intro l
  induction l with
  | nil => intro init k h; simpa using h
  | cons a t ih =>
    intro init k h
    exact ih _ k (recordGet_recordSet_isSome _ _ _ _ h)

theorem buildImageMap_recordGet_isSome (page : OCRPageObject)
    (img : OCRImageObject) (h : img ∈ page.images) :
    (recordGet (buildImageMap page) img.id).isSome := by
  unfold buildImageMap
  have haux : ∀ (l : List OCRImageObject) (init : List (String × String)),
      img ∈ l →
      (recordGet
        (l.foldl (fun m image => recordSet m image.id (dataUrlOf image)) init)
        img.id).isSome := by
    intro l
    induction l with
    | nil => intro init hmem; simp at hmem
    | cons a t ih =>
      intro init hmem
      rcases List.mem_cons.mp hmem with rfl | hmem'
      · exact foldl_recordSet_isSome t _ img.id
          (by simp [recordGet_recordSet_self])
      · exact ih _ hmem'
  exact haux page.images [] h

/-- C4: every image's id has an entry in the page's image map used for the
markdown substitution, and when the vendor's base64 payload is absent (or
empty, which JS treats the same way) the image still appears in the
processed page's image list, with a URL that falls back to the placeholder
path whenever no persisted asset overrides it. -/
theorem c4_image_map_and_placeholder
    (save : String → String → Option SavedImageAsset)
    (page : OCRPageObject) (j : Nat) (img : OCRImageObject)
    (hi : page.images[j]? = some img) :
    (recordGet (buildImageMap page) img.id).isSome ∧
    (img.imageBase64 = none ∨ img.imageBase64 = some "" →
      ∃ pimg, (processPage save page).images[j]? = some pimg ∧
        pimg.id = img.id ∧
        pimg.url = jsOrStr
          ((recordGet (storeImagesFromMap save (buildImageMap page))
            img.id).map (fun a => a.publicPath))
          "/placeholder.svg?height=200&width=300") := by
  constructor
  · exact buildImageMap_recordGet_isSome page img (List.getElem?_mem hi)
  · intro hb
    refine ⟨{ processImage page img with
      url := jsOrStr
        ((recordGet (storeImagesFromMap save (buildImageMap page))
          (processImage page img).id).map (fun a => a.publicPath))
        (processImage page img).url }, ?_, rfl, ?_⟩
    · simp [processPage, List.getElem?_map, hi]
    · have hurl : (processImage page img).url =
          "/placeholder.svg?height=200&width=300" := by
        rcases hb with hb | hb <;> simp [processImage, dataUrlOf, hb]
      have hid : (processImage page img).id = img.id := rfl
      simp [hurl, hid]

/-- Concrete one-image page used by the C4 witness. -/
def c4WitnessPage : OCRPageObject :=
  { index := 0
    markdown := "![a](a)"
    images := [{ id := "a", topLeftX := none, topLeftY := none,
                 bottomRightX := none, bottomRightY := none,
                 imageBase64 := none }]
    dimensions := none }

theorem c4_image_map_and_placeholder_witness :
    (recordGet (buildImageMap c4WitnessPage) "a").isSome ∧
    ((none : Option String) = none ∨ (none : Option String) = some "" →
      ∃ pimg,
        (processPage (fun _ _ => none) c4WitnessPage).images[0]? = some pimg ∧
        pimg.id = "a" ∧
        pimg.url = jsOrStr
          ((recordGet (storeImagesFromMap (fun _ _ => none)
            (buildImageMap c4WitnessPage)) "a").map (fun a => a.publicPath))
          "/placeholder.svg?height=200&width=300") :=
  c4_image_map_and_placeholder (fun _ _ => none) c4WitnessPage 0
    { id := "a", topLeftX := none, topLeftY := none,
      bottomRightX := none, bottomRightY := none, imageBase64 := none }
    rfl

/-! ### C9 -/

theorem store_recordGet_none (save : String → String → Option SavedImageAsset) :
    ∀ (imageMap : List (String × String)) (id : String),
      (∀ v, (id, v) ∈ imageMap → save id v = none) →
      recordGet (storeImagesFromMap save imageMap) id = none := by
  intro m
  induction m with
  | nil => intro id h; rfl
  | cons e rest ih =>
    intro id h
    obtain ⟨k, v⟩ := e
    cases hs : save k v with
    | none =>
      have hskip : storeImagesFromMap save ((k, v) :: rest) =
          storeImagesFromMap save rest := by
        simp [storeImagesFromMap, hs]
      rw [hskip]
      exact ih id (fun v' hv => h v' (List.mem_cons_of_mem _ hv))
    | some a =>
      have hk : k ≠ id := by
        intro hke
        subst hke
        exact absurd hs (by simp [h v (List.mem_cons_self _ _)])
      have hkeep : storeImagesFromMap save ((k, v) :: rest) =
          (k, a) :: storeImagesFromMap save rest := by
        simp [storeImagesFromMap, hs]
      rw [hkeep]
      simp only [recordGet, hk, if_neg]
      exact ih id (fun v' hv => h v' (List.mem_cons_of_mem _ hv))

/-- C9: a failed per-image save is swallowed — `storeImagesFromMap` (a total
function in this model, mirroring the per-image try/catch) simply omits the
image from the returned map, and the markdown rewrite then falls back to the
image's data URL (inline base64 or placeholder path) as the link target. -/
theorem c9_failed_save_omitted_and_fallback
    (save : String → String → Option SavedImageAsset)
    (imageMap : List (String × String)) (id du : String)
    (hmem : (id, du) ∈ imageMap)
    (hfail : ∀ v, (id, v) ∈ imageMap → save id v = none) :
    recordGet (storeImagesFromMap save imageMap) id = none ∧
    imageReplacement (storeImagesFromMap save imageMap) id du =
      "![" ++ id ++ "](" ++ du ++ ")" := by
  have h1 := store_recordGet_none save imageMap id hfail
  refine ⟨h1, ?_⟩
  simp [imageReplacement, h1, jsOrStr]

theorem c9_failed_save_omitted_and_fallback_witness :
    recordGet (storeImagesFromMap (fun _ _ => none)
      [("a", "data:image/png;base64,AA")]) "a" = none ∧
    imageReplacement (storeImagesFromMap (fun _ _ => none)
        [("a", "data:image/png;base64,AA")]) "a" "data:image/png;base64,AA" =
      "![" ++ "a" ++ "](" ++ "data:image/png;base64,AA" ++ ")" :=
  c9_failed_save_omitted_and_fallback (fun _ _ => none)
    [("a", "data:image/png;base64,AA")] "a" "data:image/png;base64,AA"
    (List.mem_cons_self _ _) (fun _ _ => rfl)

/-! ### C2 -/

theorem replaceAllCore_match (pat rep b : List Char) (hp : pat ≠ []) :
    replaceAllCore pat rep (pat ++ b) = rep ++ replaceAllCore pat rep b := by
  cases hpat : pat with
  | nil => exact absurd hpat hp
  | cons c pt =>
    subst hpat
    have htake : (c :: (pt ++ b)).take (c :: pt).length = c :: pt := by
      simpa using List.take_left (c :: pt) b
    have hdrop : (c :: (pt ++ b)).drop (c :: pt).length = b := by
      simpa using List.drop_left (c :: pt) b
    rw [List.cons_append]
    rw [replaceAllCore]
    rw [dif_pos ⟨hp, htake⟩, hdrop]

theorem replaceAllCore_skip (pat rep : List Char) (hp : pat ≠ []) :
    ∀ (a b : List Char),
      (∀ i, i < a.length → ((a ++ b).drop i).take pat.length ≠ pat) →
      replaceAllCore pat rep (a ++ b) = a ++ replaceAllCore pat rep b := by
  intro a
  induction a with
  | nil => intro b _; simp
  | cons c a' ih =>
    intro b h
    have h0 : (c :: (a' ++ b)).take pat.length ≠ pat := by
      have := h 0 (by simp)
      simpa using this
    rw [List.cons_append]
    rw [replaceAllCore]
    rw [dif_neg (fun hc => h0 hc.2)]
    rw [ih b (fun i hi => by
      have := h (i + 1) (by simpa using Nat.succ_lt_succ hi)
      simpa using this)]
    simp

/-- C2: the processed markdown of a page is produced by iterated literal
substring replacement (`split`/`join`) over the page's image map — no
markdown parsing; the scanner replaces each leftmost clean occurrence of
`![id](id)` by the replacement and leaves the surrounding text unchanged;
and the replacement used for an id whose save succeeded is
`![id](publicPath)`. -/
theorem c2_markdown_rewrite :
    (∀ (save : String → String → Option SavedImageAsset)
        (page : OCRPageObject),
      (processPage save page).markdown =
        (buildImageMap page).foldl
          (fun md e => jsSplitJoin md (imagePattern e.1)
            (imageReplacement (storeImagesFromMap save (buildImageMap page))
              e.1 e.2))
          page.markdown) ∧
    (∀ (pat rep a b : List Char), pat ≠ [] →
      (∀ i, i < a.length →
        ((a ++ (pat ++ b)).drop i).take pat.length ≠ pat) →
      replaceAllCore pat rep (a ++ pat ++ b) =
        a ++ rep ++ replaceAllCore pat rep b) ∧
    (∀ (saved : List (String × SavedImageAsset)) (id du : String)
        (asset : SavedImageAsset), recordGet saved id = some asset →
      asset.publicPath ≠ "" →
      imageReplacement saved id du =
        "![" ++ id ++ "](" ++ asset.publicPath ++ ")") := by
  refine ⟨fun save page => rfl,
    fun pat rep a b hp hclean => ?_,
    fun saved id du asset hget hne => ?_⟩
  · rw [List.append_assoc]
    rw [replaceAllCore_skip pat rep hp a (pat ++ b) hclean]
    rw [replaceAllCore_match pat rep b hp]
    rw [← List.append_assoc]
  · simp [imageReplacement, hget, jsOrStr_some_of_ne hne]

/-- Concrete stored asset used by the C2 witness. -/
def c2WitnessAsset : SavedImageAsset :=
  { id := "st1", originalId := "im", publicPath := "/assets/p.png",
    mimeType := "image/png" }

/-- Concrete one-image page used by the C2 witness. -/
def c2WitnessPage : OCRPageObject :=
  { index := 0
    markdown := "A![im](im)B"
    images := [{ id := "im", topLeftX := none, topLeftY := none,
                 bottomRightX := none, bottomRightY := none,
                 imageBase64 := some "DATA" }]
    dimensions := none }

theorem c2_markdown_rewrite_witness :
    ((processPage (fun _ _ => some c2WitnessAsset) c2WitnessPage).markdown =
      (buildImageMap c2WitnessPage).foldl
        (fun md e => jsSplitJoin md (imagePattern e.1)
          (imageReplacement
            (storeImagesFromMap (fun _ _ => some c2WitnessAsset)
              (buildImageMap c2WitnessPage)) e.1 e.2))
        c2WitnessPage.markdown) ∧
    (replaceAllCore ("![im](im)".data) ("R".data)
        ("A".data ++ "![im](im)".data ++ "B".data) =
      "A".data ++ "R".data ++ replaceAllCore ("![im](im)".data) ("R".data)
        ("B".data)) ∧
    (imageReplacement [("im", c2WitnessAsset)] "im" "DATA" =
      "![" ++ "im" ++ "](" ++ c2WitnessAsset.publicPath ++ ")") :=
  ⟨c2_markdown_rewrite.1 (fun _ _ => some c2WitnessAsset) c2WitnessPage,
   c2_markdown_rewrite.2.1 ("![im](im)".data) ("R".data) ("A".data) ("B".data)
     (by decide) (by decide),
   c2_markdown_rewrite.2.2 [("im", c2WitnessAsset)] "im" "DATA" c2WitnessAsset
     rfl (by decide)⟩

/-! ### C6 -/

theorem dedupGo_mem :
    ∀ (l prev : List StoredAsset) (b : StoredAsset),
      b ∈ dedupGo prev l → b ∈ l ∧ ∀ p ∈ prev, p.id ≠ b.id := by
  intro l
  induction l with
  | nil => intro prev b h; simp [dedupGo] at h
  | cons a rest ih =>
    intro prev b h
    cases hc : prev.any (fun x => x.id == a.id) with
    | true =>
      rw [dedupGo, if_pos (by rw [hc])] at h
      obtain ⟨hmem, hprev⟩ := ih (prev ++ [a]) b h
      exact ⟨List.mem_cons_of_mem _ hmem,
        fun p hp => hprev p (List.mem_append_left _ hp)⟩
    | false =>
      rw [dedupGo, if_neg (by rw [hc]; exact Bool.false_ne_true)] at h
      rcases List.mem_cons.mp h with rfl | h'
      · refine ⟨List.mem_cons_self _ _, fun p hp => ?_⟩
        have := List.any_eq_false.mp hc p hp
        simpa [beq_iff_eq] using this
      · obtain ⟨hmem, hprev⟩ := ih (prev ++ [a]) b h'
        exact ⟨List.mem_cons_of_mem _ hmem,
          fun p hp => hprev p (List.mem_append_left _ hp)⟩

theorem dedupGo_pairwise :
    ∀ (l prev : List StoredAsset),
      List.Pairwise (fun x y => x.id ≠ y.id) (dedupGo prev l) := by
  intro l
  induction l with
  | nil => intro prev; simp [dedupGo]
  | cons a rest ih =>
    intro prev
    cases hc : prev.any (fun x => x.id == a.id) with
    | true =>
      rw [dedupGo, if_pos (by rw [hc])]
      exact ih (prev ++ [a])
    | false =>
      rw [dedupGo, if_neg (by rw [hc]; exact Bool.false_ne_true)]
      refine List.Pairwise.cons (fun b hb => ?_) (ih (prev ++ [a]))
      exact (dedupGo_mem rest (prev ++ [a]) b hb).2 a
        (List.mem_append_right _ (List.mem_singleton.mpr rfl))

theorem dedupGo_first :
    ∀ (l prev : List StoredAsset) (b : StoredAsset),
      b ∈ dedupGo prev l →
      ∃ i, l[i]? = some b ∧
        ∀ (j : Nat) (aj : StoredAsset), j < i → l[j]? = some aj →
          aj.id ≠ b.id := by
  intro l
  induction l with
  | nil => intro prev b h; simp [dedupGo] at h
  | cons a rest ih =>
    intro prev b h
    have hstep : ∀ (h' : b ∈ dedupGo (prev ++ [a]) rest),
        ∃ i, (a :: rest)[i]? = some b ∧
          ∀ (j : Nat) (aj : StoredAsset), j < i → (a :: rest)[j]? = some aj →
            aj.id ≠ b.id := by
      intro h'
      obtain ⟨i, hi, hfirst⟩ := ih (prev ++ [a]) b h'
      have hne : a.id ≠ b.id :=
        (dedupGo_mem rest (prev ++ [a]) b h').2 a
          (List.mem_append_right _ (List.mem_singleton.mpr rfl))
      refine ⟨i + 1, by simpa using hi, ?_⟩
      intro j aj hj haj
      cases j with
      | zero =>
        simp only [List.getElem?_cons_zero, Option.some_inj] at haj
        subst haj
        exact hne
      | succ j' =>
        exact hfirst j' aj (Nat.lt_of_succ_lt_succ hj) (by simpa using haj)
    cases hc : prev.any (fun x => x.id == a.id) with
    | true =>
      rw [dedupGo, if_pos (by rw [hc])] at h
      exact hstep h
    | false =>
      rw [dedupGo, if_neg (by rw [hc]; exact Bool.false_ne_true)] at h
      rcases List.mem_cons.mp h with rfl | h'
      · exact ⟨0, by simp, fun j aj hj _ => absurd hj (Nat.not_lt_zero j)⟩
      · exact hstep h'

theorem dedupGo_cover :
    ∀ (l prev : List StoredAsset) (a : StoredAsset), a ∈ l →
      (∃ p ∈ prev, p.id = a.id) ∨
      ∃ b ∈ dedupGo prev l, b.id = a.id := by
  intro l
  induction l with
  | nil => intro prev a h; simp at h
  | cons c rest ih =>
    intro prev a h
    cases hc : prev.any (fun x => x.id == c.id) with
    | true =>
      rw [dedupGo, if_pos (by rw [hc])]
      rcases List.mem_cons.mp h with rfl | h'
      · obtain ⟨p, hp, hpe⟩ := List.any_eq_true.mp hc
        exact Or.inl ⟨p, hp, by simpa [beq_iff_eq] using hpe⟩
      · rcases ih (prev ++ [c]) a h' with ⟨p, hp, hpe⟩ | hfound
        · rcases List.mem_append.mp hp with hp' | hp'
          · exact Or.inl ⟨p, hp', hpe⟩
          · obtain ⟨q, hq, hqe⟩ := List.any_eq_true.mp hc
            have hpc : p = c := List.mem_singleton.mp hp'
            subst hpc
            exact Or.inl ⟨q, hq, by
              have := (beq_iff_eq.mp hqe).trans hpe
              exact this⟩
        · exact Or.inr hfound
    | false =>
      rw [dedupGo, if_neg (by rw [hc]; exact Bool.false_ne_true)]
      rcases List.mem_cons.mp h with rfl | h'
      · exact Or.inr ⟨a, List.mem_cons_self _ _, rfl⟩
      · rcases ih (prev ++ [c]) a h' with ⟨p, hp, hpe⟩ | ⟨b, hb, hbe⟩
        · rcases List.mem_append.mp hp with hp' | hp'
          · exact Or.inl ⟨p, hp', hpe⟩
          · have hpc : p = c := List.mem_singleton.mp hp'
            subst hpc
            exact Or.inr ⟨p, List.mem_cons_self _ _, hpe⟩
        · exact Or.inr ⟨b, List.mem_cons_of_mem _ hb, hbe⟩

/-- C6: the `storedAssets` list returned by `processOcrResponse` has
pairwise-distinct derived ids; every derived asset's id is represented; and
each returned asset is the first element with its id in page/image order. -/
theorem c6_stored_assets_dedup
    (save : String → String → Option SavedImageAsset)
    (resp : OCRResponse) (sid : String) :
    List.Pairwise (fun x y => x.id ≠ y.id)
      (processOcrResponse save resp sid).storedAssets ∧
    (∀ a ∈ allDerivedAssets save resp,
      ∃ b ∈ (processOcrResponse save resp sid).storedAssets, b.id = a.id) ∧
    (∀ b ∈ (processOcrResponse save resp sid).storedAssets,
      ∃ i, (allDerivedAssets save resp)[i]? = some b ∧
        ∀ (j : Nat) (aj : StoredAsset), j < i →
          (allDerivedAssets save resp)[j]? = some aj → aj.id ≠ b.id) := by
  have hsa : (processOcrResponse save resp sid).storedAssets =
      dedupGo [] (allDerivedAssets save resp) := rfl
  refine ⟨?_, ?_, ?_⟩
  · rw [hsa]
    exact dedupGo_pairwise _ []
  · intro a ha
    rcases dedupGo_cover (allDerivedAssets save resp) [] a ha with
      ⟨p, hp, _⟩ | hfound
    · simp at hp
    · rw [hsa]
      exact hfound
  · intro b hb
    rw [hsa] at hb
    exact dedupGo_first _ [] b hb

/-- Concrete saved asset used by the C6 witness. -/
def c6WitnessSaved : SavedImageAsset :=
  { id := "st", originalId := "im", publicPath := "/a/st.png",
    mimeType := "image/png" }

/-- Concrete derived stored asset used by the C6 witness. -/
def c6WitnessAsset : StoredAsset :=
  { id := "st", originalId := "im", publicPath := "/a/st.png",
    mimeType := "image/png" }

/-- Concrete two-page OCR response (same image on both pages) used by the
C6 witness. -/
def c6WitnessResp : OCRResponse :=
  { pages := [{ index := 0, markdown := "![im](im)",
                images := [{ id := "im", topLeftX := none, topLeftY := none,
                             bottomRightX := none, bottomRightY := none,
                             imageBase64 := some "D" }],
                dimensions := none },
              { index := 1, markdown := "![im](im)",
                images := [{ id := "im", topLeftX := none, topLeftY := none,
                             bottomRightX := none, bottomRightY := none,
                             imageBase64 := some "D" }],
                dimensions := none }]
    model := "m"
    usageInfo := none }

theorem c6_stored_assets_dedup_witness :
    List.Pairwise (fun x y => x.id ≠ y.id)
      (processOcrResponse (fun _ _ => some c6WitnessSaved) c6WitnessResp
        "sid").storedAssets ∧
    (∃ b ∈ (processOcrResponse (fun _ _ => some c6WitnessSaved) c6WitnessResp
        "sid").storedAssets, b.id = c6WitnessAsset.id) ∧
    (∃ i, (allDerivedAssets (fun _ _ => some c6WitnessSaved)
        c6WitnessResp)[i]? = some c6WitnessAsset ∧
      ∀ (j : Nat) (aj : StoredAsset), j < i →
        (allDerivedAssets (fun _ _ => some c6WitnessSaved)
          c6WitnessResp)[j]? = some aj → aj.id ≠ c6WitnessAsset.id) :=
  ⟨(c6_stored_assets_dedup (fun _ _ => some c6WitnessSaved) c6WitnessResp
      "sid").1,
   (c6_stored_assets_dedup (fun _ _ => some c6WitnessSaved) c6WitnessResp
      "sid").2.1 c6WitnessAsset (by decide),
   (c6_stored_assets_dedup (fun _ _ => some c6WitnessSaved) c6WitnessResp
      "sid").2.2 c6WitnessAsset (by decide)⟩
